import Mathlib

/-!
Shallow embedding of the Nerfdrone dashboard client controller
(`src/nerfdrone/interface/static/js/dashboard.js`) and proofs of the
specification's claims about it.

Modelling conventions:
* JavaScript values flowing through `fetch` responses are modelled by a small
  `Json` inductive; `undefined` is `Option.none` where a property access can
  miss.
* The DOM panels the script writes into (log panel, output areas, table
  bodies, form fields) are modelled as fields of an explicit `DashState`
  record; the script's `document.getElementById(...)` null-guards for the
  optional finance panel are modelled by `has...` flags on the state.
* Asynchronous fetches are modelled by passing the settled result of the
  network round-trip (`Except String ...`) to the handler, which is the state
  transformer the rest of the handler body denotes.
* Wall-clock timestamps prefixed by `appendLog` and floating-point number
  formatting (`toFixed`) are outside the embedding: the log is the
  newest-first list of messages, and volumes are rationals.
-/

/-- JSON values, as produced by `response.json()`. -/
inductive Json where
  | null : Json
  | bool : Bool → Json
  | num : Int → Json
  | str : String → Json
  | arr : List Json → Json
  | obj : List (String × Json) → Json
deriving Repr

mutual

/-- `JSON.stringify` on the modelled values (string escaping not needed by
any body appearing in the development). -/
def Json.stringify : Json → String
  | .null => "null"
  | .bool true => "true"
  | .bool false => "false"
  | .num n => toString n
  | .str s => "\"" ++ s ++ "\""
  | .arr l => "[" ++ Json.stringifyItems l ++ "]"
  | .obj l => "\x7b" ++ Json.stringifyFields l ++ "\x7d"

/-- Comma-separated serialization of array elements. -/
def Json.stringifyItems : List Json → String
  | [] => ""
  | [x] => Json.stringify x
  | x :: xs => Json.stringify x ++ "," ++ Json.stringifyItems xs

/-- Comma-separated serialization of object fields. -/
def Json.stringifyFields : List (String × Json) → String
  | [] => ""
  | [(k, v)] => "\"" ++ k ++ "\":" ++ Json.stringify v
  | (k, v) :: xs => "\"" ++ k ++ "\":" ++ Json.stringify v ++ "," ++ Json.stringifyFields xs

end

/-- JavaScript property access `payload.f`: defined for objects, `undefined`
(`none`) otherwise. -/
def Json.getField (j : Json) (f : String) : Option Json :=
  match j with
  | .obj l => (l.find? (fun p => p.1 = f)).map (fun p => p.2)
  | _ => none

/-- JavaScript truthiness of a JSON value. -/
def Json.truthy : Json → Bool
  | .null => false
  | .bool b => b
  | .num n => n != 0
  | .str s => s != ""
  | .arr _ => true
  | .obj _ => true

/-- Truthiness of a possibly-`undefined` value (`payload.detail || ...`). -/
def jsTruthy : Option Json → Bool
  | none => false
  | some j => j.truthy

mutual

/-- JavaScript `String(x)` as used by `new Error(x).message`. -/
def Json.toMessage : Json → String
  | .null => "null"
  | .bool true => "true"
  | .bool false => "false"
  | .num n => toString n
  | .str s => s
  | .arr l => Json.toMessageItems l
  | .obj _ => "[object Object]"

/-- `Array.prototype.toString`: elements stringified and comma-joined,
with `null` elements rendered empty. -/
def Json.toMessageItems : List Json → String
  | [] => ""
  | [Json.null] => ""
  | [x] => Json.toMessage x
  | Json.null :: xs => "," ++ Json.toMessageItems xs
  | x :: xs => Json.toMessage x ++ "," ++ Json.toMessageItems xs

end

/-- A settled `fetch` response: `ok`/`status` from the transport, and the
JSON body when `response.json()` succeeded (`none` when parsing failed, in
which case the code's `.catch(() => ({}))` substitutes an empty object). -/
structure Response where
  ok : Bool
  status : Nat
  body : Option Json
deriving Repr

/-- `safeJsonFetch` (dashboard.js lines 48–56): parse the body defensively,
return the payload on success, and on non-success status throw an `Error`
whose message is `payload.detail || JSON.stringify(payload)`, falling back to
a status template only when that is falsy. -/
def safeJsonFetch (resp : Response) : Except String Json :=
  let payload := resp.body.getD (Json.obj [])
  if resp.ok then
    Except.ok payload
  else
    let detailField := payload.getField "detail"
    let detail : Json :=
      if jsTruthy detailField then detailField.getD Json.null
      else Json.str payload.stringify
    let msg : Json :=
      if detail.truthy then detail
      else Json.str ("Request failed with status " ++ toString resp.status)
    Except.error msg.toMessage

/-! ### Geometry capture and canonicalization -/

/-- A point of a map as Google Maps exposes it (`point.lat()`, `point.lng()`);
coordinates are modelled as rationals. -/
structure LatLng where
  lat : Rat
  lng : Rat
deriving Repr, DecidableEq

/-- A rectangle's bounds as returned by `overlay.getBounds()`: a south-west
and a north-east corner. -/
structure Bounds where
  sw : LatLng
  ne : LatLng
deriving Repr, DecidableEq

/-- The canonical drawn geometry: a GeoJSON-style `Polygon` holding one ring
of `[lng, lat]` pairs. -/
structure Geo where
  coordinates : List (Rat × Rat)
deriving Repr, DecidableEq

/-- Serialization of a coordinate ring, point by point. -/
def serializeRing : List (Rat × Rat) → String
  | [] => ""
  | [(lng, lat)] => "[" ++ toString lng ++ "," ++ toString lat ++ "]"
  | (lng, lat) :: xs =>
      "[" ++ toString lng ++ "," ++ toString lat ++ "]," ++ serializeRing xs

/-- `JSON.stringify` of the canonical geometry. -/
def serializeGeo (g : Geo) : String :=
  "\x7b\"type\":\"Polygon\",\"coordinates\":[[" ++ serializeRing g.coordinates ++ "]]\x7d"

/-- The ring the Google adapter builds for a completed rectangle
(dashboard.js lines 166–175): SW, SE, NE, NW and the repeated SW corner,
each point as `[lng, lat]`. -/
def rectangleRing (bounds : Bounds) : List (Rat × Rat) :=
  [ (bounds.sw.lng, bounds.sw.lat)
  , (bounds.ne.lng, bounds.sw.lat)
  , (bounds.ne.lng, bounds.ne.lat)
  , (bounds.sw.lng, bounds.ne.lat)
  , (bounds.sw.lng, bounds.sw.lat) ]

/-! ### Review-state data model -/

/-- A finance transaction as served by the backend. -/
structure Transaction where
  transaction_id : String
  description : String
  category : String
  amount : Rat
  occurred_on : String
  transaction_type : String
  metadata : List (String × String)
deriving Repr, DecidableEq

/-- The finance snapshot: ordered income and expense lists. -/
structure FinanceSnapshot where
  income : List Transaction
  expenses : List Transaction
deriving Repr, DecidableEq

/-- A detected asset of a survey capture. -/
structure Asset where
  asset_id : String
  classification : String
  volume_cubic_m : Rat
  annotations : List String
deriving Repr, DecidableEq

/-- A survey capture as served by the backend. -/
structure Capture where
  capture_id : String
  name : String
  captured_on : String
  asset_count : Nat
  point_cloud_path : String
  overlay : Geo
  assets : List Asset
deriving Repr, DecidableEq

/-- One rendered row of a finance table body: the `data-transaction-id`
attribute (absent on the placeholder row), the cell texts, whether the row
carries a Duplicate button, and whether the `selected` class is applied. -/
structure FinanceRow where
  transactionId : Option String
  text : String
  hasDuplicate : Bool
  selected : Bool
deriving Repr, DecidableEq

/-- One rendered row of the asset table of a capture's detail pane. -/
structure AssetRow where
  asset_id : String
  classification : String
  volumeText : String
  notesText : String
deriving Repr, DecidableEq

/-- The duplicate form's field values. -/
structure FinanceForm where
  source_transaction_id : String
  description : String
  category : String
  amount : String
  occurred_on : String
  transaction_type : String
  metadata : String
deriving Repr, DecidableEq

/-- The empty duplicate form (`form.reset()` with the hidden source id also
cleared). -/
def FinanceForm.empty : FinanceForm :=
  ⟨"", "", "", "", "", "", ""⟩

/-- The mutable dashboard state: the `state` global of dashboard.js together
with the DOM panels the script writes into.  The `has...` flags model
presence of the optional finance panel elements (the script null-guards
them); the log is the newest-first list of appended messages. -/
structure DashState where
  drawnGeoJson : Option Geo
  areaInput : String
  log : List String
  surveyCaptures : List Capture
  surveyList : List (String × Capture)
  baseSelect : List (String × String)
  targetSelect : List (String × String)
  surveySummary : String
  pointCloudLink : String
  assetTable : List AssetRow
  leafletMapPresent : Bool
  googleMapPresent : Bool
  leafletOverlay : Option Geo
  googleOverlay : Option (List (Rat × Rat))
  financeSnapshot : FinanceSnapshot
  selectedId : Option String
  incomeRows : List FinanceRow
  expenseRows : List FinanceRow
  financeForm : FinanceForm
  financeSelectionSummary : String
  financeOutput : String
  hasFinanceTables : Bool
  hasFinanceOutput : Bool
  hasFinanceForm : Bool
deriving Repr

/-- `setDrawnGeometry` (dashboard.js lines 58–63): overwrite the canonical
slot, refresh the serialized hidden input, and log one message. -/
def setDrawnGeometry (st : DashState) (geojson : Option Geo) : DashState :=
  { st with
    drawnGeoJson := geojson
    areaInput := match geojson with
      | some g => serializeGeo g
      | none => ""
    log := (match geojson with
      | some _ => "Updated capture polygon from map interaction."
      | none => "Cleared capture polygon.") :: st.log }

/-- The Google adapter's `overlaycomplete` handler for a completed rectangle
(dashboard.js lines 158–193, rectangle branch): build the 5-point ring from
the rectangle's bounds and pass it to the Canonicalizer. -/
def googleRectangleComplete (st : DashState) (bounds : Bounds) : DashState :=
  setDrawnGeometry st (some ⟨rectangleRing bounds⟩)

/-! ### Rendering helpers -/

/-- `formatCurrency` (Intl GBP formatting reduced to a currency prefix;
digit grouping is locale detail outside the embedding). -/
def formatCurrency (value : Rat) : String :=
  "£" ++ toString value

/-- `renderMetadataSummary` (dashboard.js lines 449–455). -/
def renderMetadataSummary (metadata : List (String × String)) : String :=
  if metadata.isEmpty then "—"
  else String.intercalate ", " (metadata.map (fun p => p.1 ++ ": " ++ p.2))

/-- The cell texts of one rendered transaction row, in template order. -/
def renderEntryText (t : Transaction) : String :=
  t.description ++ "|" ++ t.category ++ "|" ++ formatCurrency t.amount ++ "|"
    ++ t.occurred_on ++ "|" ++ renderMetadataSummary t.metadata

/-- JavaScript `selectedId === transaction.transaction_id` where the left
side may be `null` (`none`): `null` never equals a string. -/
def jsIdEq (sel : Option String) (tid : String) : Bool :=
  match sel with
  | none => false
  | some s => s == tid

/-- JavaScript `row.dataset.transactionId === state.finance.selectedId`
where either side may be missing (`undefined`/`null` never equal). -/
def jsOptIdEq (a b : Option String) : Bool :=
  match a, b with
  | some x, some y => x == y
  | _, _ => false

/-- The `renderRows` closure of `renderFinanceTables` (dashboard.js lines
417–442): an empty list renders one placeholder row without a Duplicate
button; otherwise one row per transaction, each with a Duplicate button and
the `selected` class exactly when its id strictly equals the selected id. -/
def renderRows (sel : Option String) (entries : List Transaction) : List FinanceRow :=
  if entries.isEmpty then
    [⟨none, "No entries recorded yet.", false, false⟩]
  else
    entries.map (fun t =>
      ⟨some t.transaction_id, renderEntryText t, true, jsIdEq sel t.transaction_id⟩)

/-- `renderFinanceTables` (dashboard.js lines 409–447): store the snapshot,
then (when the table bodies exist) rebuild both table bodies. -/
def renderFinanceTables (st : DashState) (snapshot : FinanceSnapshot) : DashState :=
  let st1 := { st with financeSnapshot := snapshot }
  if st1.hasFinanceTables then
    { st1 with
      incomeRows := renderRows st1.selectedId snapshot.income
      expenseRows := renderRows st1.selectedId snapshot.expenses }
  else st1

/-- `findFinanceTransaction` (dashboard.js lines 468–471): first match by id
in income then expenses, `null` when absent. -/
def findFinanceTransaction (snapshot : FinanceSnapshot) (transactionId : String) :
    Option Transaction :=
  (snapshot.income ++ snapshot.expenses).find?
    (fun entry => entry.transaction_id == transactionId)

/-- `JSON.stringify(transaction.metadata, null, 2)` (indentation whitespace
is not modelled). -/
def metadataJson (metadata : List (String × String)) : String :=
  Json.stringify (Json.obj (metadata.map (fun p => (p.1, Json.str p.2))))

/-- `updateFinanceSelectionSummary` text for a selected transaction. -/
def selectionSummaryText (t : Transaction) : String :=
  "Duplicating " ++ t.transaction_type ++ " " ++ t.transaction_id
    ++ ". Adjust any fields before saving."

/-- `highlightFinanceSelection` (dashboard.js lines 516–524): re-derive the
`selected` class on every rendered finance row from the current selected id. -/
def highlightFinanceSelection (st : DashState) : DashState :=
  { st with
    incomeRows := st.incomeRows.map
      (fun r => { r with selected := jsOptIdEq r.transactionId st.selectedId })
    expenseRows := st.expenseRows.map
      (fun r => { r with selected := jsOptIdEq r.transactionId st.selectedId }) }

/-- `prepareFinanceForm` (dashboard.js lines 473–490): when the duplicate
form exists, populate its fields from the transaction, set the selected id,
refresh the selection summary, and re-apply highlighting. -/
def prepareFinanceForm (st : DashState) (t : Transaction) : DashState :=
  if st.hasFinanceForm then
    highlightFinanceSelection
      { st with
        financeForm :=
          { source_transaction_id := t.transaction_id
            description := t.description
            category := t.category
            amount := toString t.amount
            occurred_on := t.occurred_on
            transaction_type := t.transaction_type
            metadata := if t.metadata.isEmpty then "" else metadataJson t.metadata }
        selectedId := some t.transaction_id
        financeSelectionSummary := selectionSummaryText t }
  else st

/-- `clearFinanceSelection` (dashboard.js lines 492–502). -/
def clearFinanceSelection (st : DashState) : DashState :=
  if st.hasFinanceForm then
    highlightFinanceSelection
      { st with
        financeForm := FinanceForm.empty
        selectedId := none
        financeSelectionSummary := "Select an entry to duplicate its details." }
  else st

/-- A click on a rendered Duplicate button carrying `data-transaction = tid`
(handler bound in `bindFinanceDuplicateButtons`, dashboard.js lines
457–466): look the id up in the current snapshot and populate the form only
when found. -/
def duplicateButtonClick (st : DashState) (tid : String) : DashState :=
  match findFinanceTransaction st.financeSnapshot tid with
  | some t => prepareFinanceForm st t
  | none => st

/-- `loadFinanceTransactions` (dashboard.js lines 526–536) applied to the
settled fetch result. -/
def loadFinanceTransactions (st : DashState) (r : Except String FinanceSnapshot) :
    DashState :=
  match r with
  | .ok snapshot => renderFinanceTables st snapshot
  | .error e =>
      if st.hasFinanceOutput then
        { st with financeOutput := "Failed to load finance data: " ++ e }
      else st

/-- The `/finance/duplicate` success payload. -/
structure DuplicatePayload where
  transaction : Transaction
  snapshot : FinanceSnapshot
deriving Repr, DecidableEq

/-- JSON rendering of a transaction for the output area
(`JSON.stringify(payload.transaction, null, 2)`; indentation not modelled). -/
def transactionJson (t : Transaction) : String :=
  Json.stringify (Json.obj
    [ ("transaction_id", Json.str t.transaction_id)
    , ("description", Json.str t.description)
    , ("category", Json.str t.category)
    , ("amount", Json.str (toString t.amount))
    , ("occurred_on", Json.str t.occurred_on)
    , ("transaction_type", Json.str t.transaction_type)
    , ("metadata", Json.obj (t.metadata.map (fun p => (p.1, Json.str p.2)))) ])

/-- `submitFinanceDuplicate` (dashboard.js lines 538–561) applied to the
settled fetch result; the returned flag records whether the network call was
issued (the guard branch returns before any fetch). -/
def submitFinanceDuplicate (st : DashState) (r : Except String DuplicatePayload) :
    DashState × Bool :=
  if st.financeForm.source_transaction_id == "" then
    ((if st.hasFinanceOutput then
        { st with financeOutput := "Choose an entry to duplicate before submitting." }
      else st), false)
  else
    match r with
    | .ok payload =>
        let st1 := renderFinanceTables st payload.snapshot
        let st2 :=
          if st1.hasFinanceOutput then
            { st1 with financeOutput := transactionJson payload.transaction }
          else st1
        ({ st2 with
            log := ("Duplicated transaction "
              ++ st.financeForm.source_transaction_id ++ ".") :: st2.log }, true)
    | .error e =>
        ((if st.hasFinanceOutput then
            { st with financeOutput := "Duplication failed: " ++ e }
          else st), true)

/-! ### Survey review state -/

/-- `showSurveyDetails` summary line (dashboard.js line 301). -/
def surveySummaryText (c : Capture) : String :=
  c.name ++ " captured on " ++ c.captured_on ++ ". "
    ++ toString c.asset_count ++ " assets detected."

/-- One asset-table row (dashboard.js lines 317–326): annotations joined by
"; " with a dash placeholder when the join is empty (`join || dash`);
`toFixed(2)` float formatting is rendered as the rational's string. -/
def assetRowOf (a : Asset) : AssetRow :=
  { asset_id := a.asset_id
    classification := a.classification
    volumeText := toString a.volume_cubic_m
    notesText :=
      let joined := String.intercalate "; " a.annotations
      if joined == "" then "—" else joined }

/-- `updateMapOverlay` (dashboard.js lines 269–294): each present adapter
replaces its previous overlay with the capture's overlay geometry. -/
def updateMapOverlay (st : DashState) (c : Capture) : DashState :=
  let st1 :=
    if st.leafletMapPresent then { st with leafletOverlay := some c.overlay } else st
  if st1.googleMapPresent then
    { st1 with googleOverlay := some c.overlay.coordinates }
  else st1

/-- `showSurveyDetails` (dashboard.js lines 296–331): render summary, point
cloud link and asset table for the capture, log, and update the overlays. -/
def showSurveyDetails (st : DashState) (c : Capture) : DashState :=
  updateMapOverlay
    { st with
      surveySummary := surveySummaryText c
      pointCloudLink := c.point_cloud_path
      assetTable := c.assets.map assetRowOf
      log := ("Loaded survey details for " ++ c.capture_id ++ ".") :: st.log }
    c

/-- `renderSurveyList` (dashboard.js lines 257–267) as the rendered button
list: each capture yields one button whose `data-capture` attribute is its id
and whose click handler closes over that capture object. -/
def renderSurveyList (captures : List Capture) : List (String × Capture) :=
  captures.map (fun c => (c.capture_id, c))

/-- `populateSurveySelects` option list (value, label) built from a capture
collection (dashboard.js lines 243–255). -/
def surveyOptions (captures : List Capture) : List (String × String) :=
  captures.map (fun c => (c.capture_id, c.name ++ " (" ++ c.captured_on ++ ")"))

/-- The `/survey-days` success payload. -/
structure SurveyPayload where
  captures : List Capture
deriving Repr, DecidableEq

/-- `loadSurveyDays` (dashboard.js lines 333–342) applied to the settled
fetch result: on success replace the collection wholesale and re-render the
list and both selectors; on failure only log the message. -/
def loadSurveyDays (st : DashState) (r : Except String SurveyPayload) : DashState :=
  match r with
  | .ok payload =>
      let st1 := { st with surveyCaptures := payload.captures }
      let st2 :=
        { st1 with
          surveyList := renderSurveyList st1.surveyCaptures
          log := "Survey list rendered." :: st1.log }
      { st2 with
        baseSelect := surveyOptions st2.surveyCaptures
        targetSelect := surveyOptions st2.surveyCaptures }
  | .error e =>
      { st with log := ("Failed to load survey days: " ++ e) :: st.log }

/-- A click on the survey-list button carrying `data-capture = id`: dispatch
to `showSurveyDetails` with the capture object the rendered button closed
over; ids absent from the rendered list have no button to click, so nothing
happens. -/
def clickSurveyButton (st : DashState) (id : String) : DashState :=
  match st.surveyList.find? (fun p => p.1 == id) with
  | some p => showSurveyDetails st p.2
  | none => st

/-! ### Route form submission -/

/-- `FormData.set` (replace the first entry with the key, dropping later
duplicates; append when the key is absent). -/
def formDataSet : List (String × String) → String → String → List (String × String)
  | [], k, v => [(k, v)]
  | (k0, v0) :: rest, k, v =>
      if k0 == k then (k, v) :: rest.filter (fun p => p.1 ≠ k)
      else (k0, v0) :: formDataSet rest k v

/-- `FormData.get`: value of the first entry with the key. -/
def formDataGet (fd : List (String × String)) (k : String) : Option String :=
  (fd.find? (fun p => p.1 == k)).map (fun p => p.2)

/-- The payload `submitRoute` builds (dashboard.js lines 205–211): the form's
entries, with `area_geojson` overwritten from the canonical slot's current
serialization whenever a geometry is set. -/
def submitRoutePayload (st : DashState) (formEntries : List (String × String)) :
    List (String × String) :=
  match st.drawnGeoJson with
  | some g => formDataSet formEntries "area_geojson" (serializeGeo g)
  | none => formEntries

/-! ### Helper lemmas -/

theorem string_beq_symm (s t : String) : (s == t) = (t == s) := by
  by_cases h : s = t
  · subst h; rfl
  · simp [h, Ne.symm h]

theorem toDigitsCore_len (b : Nat) :
    ∀ (fuel n : Nat) (ds : List Char), ds.length ≤ (Nat.toDigitsCore b fuel n ds).length := by
  intro fuel
  induction fuel with
  | zero => intro n ds; simp [Nat.toDigitsCore]
  | succ fuel ih =>
      intro n ds
      rw [Nat.toDigitsCore]
      by_cases h : n / b = 0
      · simp [h]
      · simp only [h, if_false]
        exact le_trans (by simp) (ih (n / b) ((n % b).digitChar :: ds))

theorem toDigits_ne_nil (b n : Nat) : Nat.toDigits b n ≠ [] := by
  unfold Nat.toDigits
  intro hcon
  have h1 : 1 ≤ (Nat.toDigitsCore b (n + 1) n []).length := by
    rw [Nat.toDigitsCore]
    by_cases h : n / b = 0
    · simp [h]
    · simp only [h, if_false]
      exact le_trans (by simp) (toDigitsCore_len b n (n / b) _)
  rw [hcon] at h1
  simp at h1

theorem nat_repr_len (n : Nat) : 0 < (Nat.repr n).length := by
  unfold Nat.repr
  have := toDigits_ne_nil 10 n
  simp [List.asString, String.length]
  exact List.length_pos.mpr this

theorem int_toString_len (n : Int) : 0 < (toString n).length := by
  show 0 < (Int.repr n).length
  unfold Int.repr
  cases n with
  | ofNat m => exact nat_repr_len m
  | negSucc m =>
      simp [String.length_append]
      left
      decide

theorem Json.stringify_len (j : Json) : 0 < j.stringify.length := by
  cases j with
  | null => decide
  | bool b => cases b <;> decide
  | num n => simpa [Json.stringify] using int_toString_len n
  | str s => simp [Json.stringify, String.length_append]; left; left; decide
  | arr l => simp [Json.stringify, String.length_append]; left; left; decide
  | obj l => simp [Json.stringify, String.length_append]; left; left; decide

theorem Json.stringify_ne_empty (j : Json) : j.stringify ≠ "" := by
  intro h
  have hl := Json.stringify_len j
  rw [h] at hl
  simp at hl

theorem formDataGet_formDataSet (fd : List (String × String)) (k v : String) :
    formDataGet (formDataSet fd k v) k = some v := by
  induction fd with
  | nil => simp [formDataSet, formDataGet, List.find?]
  | cons p rest ih =>
      obtain ⟨k0, v0⟩ := p
      by_cases h : (k0 == k) = true
      · simp [formDataSet, h, formDataGet, List.find?]
      · simp only [formDataSet, h, if_false]
        simp only [formDataGet, List.find?, h] at ih ⊢
        exact ih

theorem findFirstAux {α : Type} (p : α → Bool) :
    ∀ (l : List α) (t : α), l.find? p = some t →
      p t = true ∧ ∃ pre post, l = pre ++ t :: post ∧ ∀ u ∈ pre, p u = false := by
  intro l
  induction l with
  | nil => intro t h; simp [List.find?] at h
  | cons a l ih =>
      intro t h
      by_cases hp : p a = true
      · have ha : a = t := by simpa [List.find?, hp] using h
        subst ha
        exact ⟨hp, [], l, rfl, by intro u hu; simp at hu⟩
      · have hp' : p a = false := by simpa using hp
        have h' : l.find? p = some t := by simpa [List.find?, hp'] using h
        obtain ⟨hpt, pre, post, hdec, hpre⟩ := ih t h'
        refine ⟨hpt, a :: pre, post, by rw [hdec]; simp, ?_⟩
        intro u hu
        rcases List.mem_cons.mp hu with rfl | hu'
        · exact hp'
        · exact hpre u hu'

theorem renderRows_selected_eq (sel : Option String) (entries : List Transaction) :
    ∀ row ∈ renderRows sel entries, row.selected = jsOptIdEq row.transactionId sel := by
  intro row hrow
  unfold renderRows at hrow
  by_cases h : entries.isEmpty
  · simp [h] at hrow
    subst hrow
    rfl
  · simp [h] at hrow
    obtain ⟨t, _, rfl⟩ := hrow
    show jsIdEq sel t.transaction_id = jsOptIdEq (some t.transaction_id) sel
    cases sel with
    | none => rfl
    | some s => simpa [jsIdEq, jsOptIdEq] using string_beq_symm s t.transaction_id

/-! ### Concrete fixtures -/

/-- A baseline dashboard state with the finance panel present and everything
else empty, used to instantiate theorems at concrete inputs. -/
def testState : DashState :=
  { drawnGeoJson := none
    areaInput := ""
    log := []
    surveyCaptures := []
    surveyList := []
    baseSelect := []
    targetSelect := []
    surveySummary := ""
    pointCloudLink := ""
    assetTable := []
    leafletMapPresent := true
    googleMapPresent := true
    leafletOverlay := none
    googleOverlay := none
    financeSnapshot := ⟨[], []⟩
    selectedId := none
    incomeRows := []
    expenseRows := []
    financeForm := FinanceForm.empty
    financeSelectionSummary := ""
    financeOutput := ""
    hasFinanceTables := true
    hasFinanceOutput := true
    hasFinanceForm := true }

/-- A sample drawn polygon. -/
def wGeo : Geo := ⟨[(0, 0), (1, 0), (1, 1), (0, 1), (0, 0)]⟩

/-- A sample transaction. -/
def wTx : Transaction :=
  { transaction_id := "tx-1"
    description := "Battery pack"
    category := "equipment"
    amount := 120
    occurred_on := "2024-05-01"
    transaction_type := "expense"
    metadata := [("supplier", "acme")] }

/-- A sample capture. -/
def wCapture : Capture :=
  { capture_id := "cap-1"
    name := "North field"
    captured_on := "2024-06-02"
    asset_count := 1
    point_cloud_path := "/exports/cap-1.ply"
    overlay := wGeo
    assets := [⟨"asset-1", "stockpile", 3, ["checked"]⟩] }

/-! ### Claim theorems -/

/-- C1: for every pair of opposite corner bounds (south-west / north-east),
including degenerate zero-width input, the Google adapter's rectangle draw
produces a ring of exactly 5 points in the fixed order SW, SE, NE, NW, SW
(closing the ring back at the start point) and passes it, as the canonical
`Polygon`, to the Canonicalizer (`setDrawnGeometry`). -/
theorem rectangleDraw_canonical_ring (st : DashState) (b : Bounds) :
    (rectangleRing b).length = 5
    ∧ rectangleRing b =
        [ (b.sw.lng, b.sw.lat), (b.ne.lng, b.sw.lat), (b.ne.lng, b.ne.lat)
        , (b.sw.lng, b.ne.lat), (b.sw.lng, b.sw.lat) ]
    ∧ (rectangleRing b).head? = some (b.sw.lng, b.sw.lat)
    ∧ (rectangleRing b).getLast? = (rectangleRing b).head?
    ∧ (googleRectangleComplete st b).drawnGeoJson = some ⟨rectangleRing b⟩
    ∧ (googleRectangleComplete st b).areaInput = serializeGeo ⟨rectangleRing b⟩ := by
  exact ⟨rfl, rfl, rfl, rfl, rfl, rfl⟩

/-- C2: whenever a canonical geometry is set at submit time, the payload the
route form submits carries `area_geojson` equal to that geometry's current
serialization, whatever the form's previous entries held. -/
theorem submitRoute_uses_current_geometry (st : DashState) (g : Geo)
    (formEntries : List (String × String)) (h : st.drawnGeoJson = some g) :
    formDataGet (submitRoutePayload st formEntries) "area_geojson"
      = some (serializeGeo g) := by
  unfold submitRoutePayload
  rw [h]
  exact formDataGet_formDataSet formEntries _ _

/-- Witness for C2 at a concrete state whose form already held a stale
`area_geojson` entry. -/
theorem submitRoute_uses_current_geometry_witness :
    formDataGet
      (submitRoutePayload { testState with drawnGeoJson := some wGeo }
        [("area_geojson", "stale"), ("drone", "alpha")]) "area_geojson"
      = some (serializeGeo wGeo) :=
  submitRoute_uses_current_geometry _ wGeo _ rfl

/-- C3: a failing `/survey-days` fetch leaves the stored capture collection,
the rendered list and both selectors untouched and appends exactly one log
line consisting of the failure prefix followed by the failure message. -/
theorem loadSurveyDays_failure_preserves_state (st : DashState) (e : String) :
    (loadSurveyDays st (Except.error e)).surveyCaptures = st.surveyCaptures
    ∧ (loadSurveyDays st (Except.error e)).surveyList = st.surveyList
    ∧ (loadSurveyDays st (Except.error e)).baseSelect = st.baseSelect
    ∧ (loadSurveyDays st (Except.error e)).targetSelect = st.targetSelect
    ∧ (loadSurveyDays st (Except.error e)).log
        = ("Failed to load survey days: " ++ e) :: st.log
    ∧ (loadSurveyDays st (Except.error e)).log.length = st.log.length + 1 := by
  refine ⟨rfl, rfl, rfl, rfl, rfl, ?_⟩
  simp [loadSurveyDays]

/-- C4 counterexample: a failing response with status 500 whose body could
not be parsed as JSON is reported with message "\x7b\x7d" — the raw JSON of
the substituted empty object — not with the HTTP status, contradicting the
claim's third case. -/
theorem safeJsonFetch_detail_counterexample :
    safeJsonFetch ⟨false, 500, none⟩ = Except.error "\x7b\x7d"
    ∧ ("\x7b\x7d" : String) ≠ "Request failed with status 500" := by
  exact ⟨rfl, by decide⟩

/-- C4 (amended): on a non-success response the failure message is the body's
`detail` string when that field is present and nonempty; when the field is
absent the message is the raw JSON of the parsed body; and when no JSON body
could be parsed the message is the raw JSON of the empty-object fallback,
"\x7b\x7d" — the HTTP-status fallback text is never reached. -/
theorem safeJsonFetch_error_message (resp : Response) (hok : resp.ok = false) :
    (∀ s, s ≠ "" →
        (resp.body.getD (Json.obj [])).getField "detail" = some (Json.str s) →
        safeJsonFetch resp = Except.error s)
    ∧ ((resp.body.getD (Json.obj [])).getField "detail" = none →
        safeJsonFetch resp = Except.error (resp.body.getD (Json.obj [])).stringify)
    ∧ (resp.body = none → safeJsonFetch resp = Except.error "\x7b\x7d") := by
  refine ⟨?_, ?_, ?_⟩
  · intro s hs hd
    have hs' : (s != "") = true := by simpa using hs
    simp [safeJsonFetch, hok, hd, jsTruthy, Json.truthy, hs', Json.toMessage]
  · intro hd
    have hne := Json.stringify_ne_empty (resp.body.getD (Json.obj []))
    have hne' : ((resp.body.getD (Json.obj [])).stringify != "") = true := by simpa using hne
    simp [safeJsonFetch, hok, hd, jsTruthy, Json.truthy, hne', Json.toMessage]
  · intro hb
    simp [safeJsonFetch, hok, hb, Json.getField, jsTruthy, Json.truthy,
      Json.stringify, Json.stringifyFields, Json.toMessage]

/-- Witness for the amended C4 at a concrete failing response carrying a
nonempty `detail` field. -/
theorem safeJsonFetch_error_message_witness :
    safeJsonFetch ⟨false, 404, some (Json.obj [("detail", Json.str "boom")])⟩
      = Except.error "boom" :=
  (safeJsonFetch_error_message ⟨false, 404, some (Json.obj [("detail", Json.str "boom")])⟩
    rfl).1 "boom" (by decide) rfl

/-- C5: submitting the finance-duplicate form with no source transaction
selected issues no network call, writes the guidance message to the finance
output area, and leaves the snapshot, the selection, the rendered tables,
the form fields and the log unchanged. -/
theorem submitFinanceDuplicate_guard (st : DashState) (r : Except String DuplicatePayload)
    (hsrc : st.financeForm.source_transaction_id = "")
    (hout : st.hasFinanceOutput = true) :
    (submitFinanceDuplicate st r).2 = false
    ∧ (submitFinanceDuplicate st r).1.financeOutput
        = "Choose an entry to duplicate before submitting."
    ∧ (submitFinanceDuplicate st r).1.financeSnapshot = st.financeSnapshot
    ∧ (submitFinanceDuplicate st r).1.selectedId = st.selectedId
    ∧ (submitFinanceDuplicate st r).1.incomeRows = st.incomeRows
    ∧ (submitFinanceDuplicate st r).1.expenseRows = st.expenseRows
    ∧ (submitFinanceDuplicate st r).1.financeForm = st.financeForm
    ∧ (submitFinanceDuplicate st r).1.log = st.log := by
  have hb : (st.financeForm.source_transaction_id == "") = true := by simp [hsrc]
  simp [submitFinanceDuplicate, hb, hout]

/-- Witness for C5 at the baseline state, whose duplicate form is empty. -/
theorem submitFinanceDuplicate_guard_witness :
    (submitFinanceDuplicate testState (Except.error "offline")).2 = false
    ∧ (submitFinanceDuplicate testState (Except.error "offline")).1.financeOutput
        = "Choose an entry to duplicate before submitting." := by
  have h := submitFinanceDuplicate_guard testState (Except.error "offline") rfl rfl
  exact ⟨h.1, h.2.1⟩

/-- C10: on a success-status response `safeJsonFetch` resolves with the
parsed body — the substituted empty object when parsing failed — and never
raises; body-parse failure alone cannot make it throw. -/
theorem safeJsonFetch_success_no_throw (resp : Response) (hok : resp.ok = true) :
    safeJsonFetch resp = Except.ok (resp.body.getD (Json.obj []))
    ∧ (resp.body = none → safeJsonFetch resp = Except.ok (Json.obj [])) := by
  refine ⟨by simp [safeJsonFetch, hok], ?_⟩
  intro hb
  simp [safeJsonFetch, hok, hb]

/-- Witness for C10 at a concrete success response with an unparseable
body. -/
theorem safeJsonFetch_success_no_throw_witness :
    safeJsonFetch ⟨true, 200, none⟩ = Except.ok (Json.obj []) :=
  (safeJsonFetch_success_no_throw ⟨true, 200, none⟩ rfl).2 rfl

/-- C6: the selected transaction id is carried over unchanged by every
finance table re-render — `renderFinanceTables`, `loadFinanceTransactions`
on either outcome, and `submitFinanceDuplicate` on every branch including a
successful duplicate — while `prepareFinanceForm` and `clearFinanceSelection`
are the operations that set and clear it; every rendered row carries the
`selected` class exactly when its id strictly equals the current selected
id. -/
theorem finance_selection_stability (st : DashState) (snap : FinanceSnapshot)
    (rd : Except String DuplicatePayload) (rf : Except String FinanceSnapshot)
    (t : Transaction) :
    (renderFinanceTables st snap).selectedId = st.selectedId
    ∧ (loadFinanceTransactions st rf).selectedId = st.selectedId
    ∧ (submitFinanceDuplicate st rd).1.selectedId = st.selectedId
    ∧ (st.hasFinanceForm = true →
        (prepareFinanceForm st t).selectedId = some t.transaction_id)
    ∧ (st.hasFinanceForm = true → (clearFinanceSelection st).selectedId = none)
    ∧ (st.hasFinanceTables = true →
        ∀ row ∈ (renderFinanceTables st snap).incomeRows
            ++ (renderFinanceTables st snap).expenseRows,
          row.selected = jsOptIdEq row.transactionId st.selectedId)
    ∧ (∀ payload : DuplicatePayload, st.hasFinanceTables = true →
        st.financeForm.source_transaction_id ≠ "" →
        ∀ row ∈ (submitFinanceDuplicate st (Except.ok payload)).1.incomeRows
            ++ (submitFinanceDuplicate st (Except.ok payload)).1.expenseRows,
          row.selected = jsOptIdEq row.transactionId st.selectedId) := by
  have hrender : ∀ snp : FinanceSnapshot, (renderFinanceTables st snp).selectedId = st.selectedId := by
    intro snp
    by_cases ht : st.hasFinanceTables <;> simp [renderFinanceTables, ht]
  have hrows : ∀ snp : FinanceSnapshot, st.hasFinanceTables = true →
      (renderFinanceTables st snp).incomeRows = renderRows st.selectedId snp.income
      ∧ (renderFinanceTables st snp).expenseRows = renderRows st.selectedId snp.expenses := by
    intro snp ht
    constructor <;> simp [renderFinanceTables, ht]
  refine ⟨hrender snap, ?_, ?_, ?_, ?_, ?_, ?_⟩
  · cases rf with
    | ok snp => exact hrender snp
    | error e => by_cases ho : st.hasFinanceOutput <;> simp [loadFinanceTransactions, ho]
  · by_cases hsrc : (st.financeForm.source_transaction_id == "") = true
    · by_cases ho : st.hasFinanceOutput <;>
        simp [submitFinanceDuplicate, hsrc, ho]
    · cases rd with
      | ok payload =>
          by_cases ho : (renderFinanceTables st payload.snapshot).hasFinanceOutput <;>
            simp [submitFinanceDuplicate, hsrc, ho, hrender payload.snapshot]
      | error e =>
          by_cases ho : st.hasFinanceOutput <;> simp [submitFinanceDuplicate, hsrc, ho]
  · intro hf
    simp [prepareFinanceForm, hf, highlightFinanceSelection]
  · intro hf
    simp [clearFinanceSelection, hf, highlightFinanceSelection]
  · intro ht row hrow
    rw [(hrows snap ht).1, (hrows snap ht).2] at hrow
    rcases List.mem_append.mp hrow with hm | hm
    · exact renderRows_selected_eq st.selectedId snap.income row hm
    · exact renderRows_selected_eq st.selectedId snap.expenses row hm
  · intro payload ht hsrc row hrow
    have hsrc' : (st.financeForm.source_transaction_id == "") = false := by
      simpa using hsrc
    by_cases ho : (renderFinanceTables st payload.snapshot).hasFinanceOutput <;>
      simp [submitFinanceDuplicate, hsrc', ho] at hrow
    all_goals {
      rcases hrow with hm | hm
      · rw [(hrows payload.snapshot ht).1] at hm
        exact renderRows_selected_eq st.selectedId payload.snapshot.income row hm
      · rw [(hrows payload.snapshot ht).2] at hm
        exact renderRows_selected_eq st.selectedId payload.snapshot.expenses row hm
    }

/-- Witness for C6 at a concrete state with transaction `tx-1` selected. -/
theorem finance_selection_stability_witness :
    (prepareFinanceForm testState wTx).selectedId = some "tx-1"
    ∧ (renderFinanceTables { testState with selectedId := some "tx-1" }
        ⟨[wTx], []⟩).selectedId = some "tx-1"
    ∧ ∀ row ∈ (renderFinanceTables { testState with selectedId := some "tx-1" }
          ⟨[wTx], []⟩).incomeRows
        ++ (renderFinanceTables { testState with selectedId := some "tx-1" }
          ⟨[wTx], []⟩).expenseRows,
        row.selected = jsOptIdEq row.transactionId (some "tx-1") := by
  refine ⟨?_, ?_, ?_⟩
  · exact (finance_selection_stability testState ⟨[wTx], []⟩ (Except.error "e")
      (Except.error "e") wTx).2.2.2.1 rfl
  · exact (finance_selection_stability { testState with selectedId := some "tx-1" }
      ⟨[wTx], []⟩ (Except.error "e") (Except.error "e") wTx).1
  · exact (finance_selection_stability { testState with selectedId := some "tx-1" }
      ⟨[wTx], []⟩ (Except.error "e") (Except.error "e") wTx).2.2.2.2.2.1 rfl

/-- C7: an empty transaction list (income or expenses) renders exactly one
placeholder row with the explanatory text and neither a transaction id nor a
Duplicate control. -/
theorem renderRows_empty_placeholder (sel : Option String) :
    renderRows sel [] = [⟨none, "No entries recorded yet.", false, false⟩]
    ∧ (renderRows sel []).length = 1
    ∧ ∀ row ∈ renderRows sel [], row.hasDuplicate = false ∧ row.transactionId = none := by
  refine ⟨rfl, rfl, ?_⟩
  intro row h
  simp [renderRows] at h
  subst h
  exact ⟨rfl, rfl⟩

/-- C8: with the rendered survey list in sync with the stored collection (as
every successful `loadSurveyDays` leaves it — third conjunct), clicking a
capture id absent from the current collection changes nothing (no render, no
overlay, no failure), and clicking a present id shows the details of the
capture found in the *current* stored collection. -/
theorem clickSurveyButton_lookup (st : DashState) (id : String)
    (hsync : st.surveyList = renderSurveyList st.surveyCaptures) :
    ((∀ c ∈ st.surveyCaptures, c.capture_id ≠ id) → clickSurveyButton st id = st)
    ∧ (∀ c, st.surveyCaptures.find? (fun x => x.capture_id == id) = some c →
        clickSurveyButton st id = showSurveyDetails st c ∧ c ∈ st.surveyCaptures)
    ∧ (∀ payload : SurveyPayload,
        (loadSurveyDays st (Except.ok payload)).surveyList
          = renderSurveyList (loadSurveyDays st (Except.ok payload)).surveyCaptures) := by
  have hfind : st.surveyList.find? (fun p => p.1 == id)
      = (st.surveyCaptures.find? (fun c => c.capture_id == id)).map
          (fun c => (c.capture_id, c)) := by
    rw [hsync]
    unfold renderSurveyList
    rw [List.find?_map]
    rfl
  refine ⟨?_, ?_, ?_⟩
  · intro habs
    have hnone : st.surveyCaptures.find? (fun c => c.capture_id == id) = none :=
      List.find?_eq_none.mpr (fun c hc => by simpa using habs c hc)
    unfold clickSurveyButton
    rw [hfind, hnone]
    rfl
  · intro c hc
    constructor
    · unfold clickSurveyButton
      rw [hfind, hc]
      rfl
    · exact List.mem_of_find?_eq_some hc
  · intro payload
    rfl

/-- C9: `findFinanceTransaction` returns the first transaction with the
requested id from the concatenation income ++ expenses, or `none` exactly
when no such transaction exists; a Duplicate-button click whose id is absent
from the current snapshot leaves the whole state — form, selection and
summary included — unchanged. -/
theorem findFinanceTransaction_first_match (snap : FinanceSnapshot) (tid : String)
    (st : DashState) :
    (findFinanceTransaction snap tid = none ↔
        ∀ t ∈ snap.income ++ snap.expenses, t.transaction_id ≠ tid)
    ∧ (∀ t, findFinanceTransaction snap tid = some t →
        t.transaction_id = tid
        ∧ ∃ pre post, snap.income ++ snap.expenses = pre ++ t :: post
            ∧ ∀ u ∈ pre, u.transaction_id ≠ tid)
    ∧ ((∀ t ∈ st.financeSnapshot.income ++ st.financeSnapshot.expenses,
          t.transaction_id ≠ tid) → duplicateButtonClick st tid = st) := by
  refine ⟨?_, ?_, ?_⟩
  · unfold findFinanceTransaction
    rw [List.find?_eq_none]
    constructor
    · intro h t ht; simpa using h t ht
    · intro h t ht; simpa using h t ht
  · intro t ht
    obtain ⟨hpt, pre, post, hdec, hpre⟩ := findFirstAux _ _ t ht
    refine ⟨by simpa using hpt, pre, post, hdec, ?_⟩
    intro u hu
    simpa using hpre u hu
  · intro habs
    unfold duplicateButtonClick
    have hnone : findFinanceTransaction st.financeSnapshot tid = none := by
      unfold findFinanceTransaction
      exact List.find?_eq_none.mpr (fun t ht => by simpa using habs t ht)
    rw [hnone]

/-- A state holding one rendered capture. -/
def wSurveyState : DashState :=
  { testState with
    surveyCaptures := [wCapture]
    surveyList := renderSurveyList [wCapture] }

/-- A state holding one income transaction. -/
def wFinState : DashState :=
  { testState with financeSnapshot := ⟨[wTx], []⟩ }

/-- Witness for C8 at a one-capture collection: an absent id is a no-op and
the present id renders that capture. -/
theorem clickSurveyButton_lookup_witness :
    clickSurveyButton wSurveyState "missing" = wSurveyState
    ∧ clickSurveyButton wSurveyState "cap-1"
      = showSurveyDetails wSurveyState wCapture := by
  refine ⟨?_, ?_⟩
  · exact (clickSurveyButton_lookup wSurveyState "missing" rfl).1 (by decide)
  · exact ((clickSurveyButton_lookup wSurveyState "cap-1" rfl).2.1 wCapture (by decide)).1

/-- Witness for C9 at a one-transaction snapshot and an absent id. -/
theorem findFinanceTransaction_first_match_witness :
    findFinanceTransaction ⟨[wTx], []⟩ "zzz" = none
    ∧ duplicateButtonClick wFinState "zzz" = wFinState := by
  refine ⟨?_, ?_⟩
  · exact (findFinanceTransaction_first_match ⟨[wTx], []⟩ "zzz" testState).1.mpr (by decide)
  · exact (findFinanceTransaction_first_match ⟨[wTx], []⟩ "zzz" wFinState).2.2 (by decide)
